import Mathlib

/-!
Shallow embedding of `src/Investor_Risk_assement.py` (a Streamlit
questionnaire that scores an investor's time horizon and risk tolerance and
looks up a portfolio allocation in reference tables).

Python integers are modelled as `Int` (no overflow in Python).  Pandas
dataframes are modelled as lists of rows plus booleans recording which
required columns are present; `df.empty` is modelled by the row list being
empty (`load_csv` returns an empty frame on a missing/unreadable file).
Strings stay `String`; `str.strip`/`str.lower` are the char-wise `strip` /
`lower` defined below (the labels involved are ASCII).  Streamlit calls
(`st.warning` + `st.stop`, `st.error` + `st.stop`, `st.info` ...) are
modelled by dedicated result constructors: each constructor of `ShowResult`
and `MainResult` records which terminal UI path the code took.
-/

namespace RiskProfile

/-- Embeds `score_from_radio` (line 53): look the selected label up in the
question's ordered label→points mapping, defaulting to 0
(`options_to_points.get(choice, 0)`). -/
def score_from_radio (options_to_points : List (String × Int)) (choice : String) : Int :=
  (options_to_points.lookup choice).getD 0

/-- Question 1 table (line 67). -/
def q1_table : List (String × Int) :=
  [("Less than 3 years", 1), ("3–5 years", 3), ("6–10 years", 7), ("11 years or more", 10)]

/-- Question 2 table (line 73). -/
def q2_table : List (String × Int) :=
  [("Less than 2 years", 0), ("2–5 years", 1), ("6–10 years", 4), ("11 years or more", 8)]

/-- Question 3 table (line 98). -/
def q3_table : List (String × Int) :=
  [("None", 1), ("Limited", 3), ("Good", 7), ("Extensive", 10)]

/-- Question 4 table (line 99). -/
def q4_table : List (String × Int) :=
  [("Take lower than average risks expecting to earn lower than average returns", 0),
   ("Take average risks expecting to earn average returns", 4),
   ("Take above average risks expecting to earn above average returns", 8)]

/-- Question 5 table (line 104). -/
def q5_table : List (String × Int) :=
  [("Bonds and/or bond funds", 3), ("Stocks and/or stock funds", 6),
   ("International securities and/or international funds", 8)]

/-- Question 6 table (line 109). -/
def q6_table : List (String × Int) :=
  [("Sell all of my shares", 0), ("Sell some of my shares", 2), ("Do nothing", 5),
   ("Buy more shares", 8)]

/-- Embeds `render_time_horizon` (lines 63–92): the time-horizon score is the
plain sum of the question-1 and question-2 scores. -/
def render_time_horizon (a1 a2 : String) : Int :=
  score_from_radio q1_table a1 + score_from_radio q2_table a2

/-- The `question_7.csv` dataframe: its rows as (Plan, Points) pairs, plus
flags for whether the `Plan` and `Points` columns exist.  Descriptive columns
are ignored by scoring and omitted. -/
structure PlanTable where
  hasPlanCol : Bool
  hasPointsCol : Bool
  rows : List (String × Int)
deriving Repr, DecidableEq

/-- Embeds the question-7 scoring block of `render_risk_tolerance`
(lines 136–154): if the table is non-empty and has both `Plan` and `Points`
columns, the points of the first row whose `Plan` equals the selected plan;
otherwise (missing/malformed table, or no matching row) 0. -/
def q7_points (df_q7 : PlanTable) (plan_choice : String) : Int :=
  if !df_q7.rows.isEmpty && df_q7.hasPlanCol && df_q7.hasPointsCol then
    match df_q7.rows.filter (fun r => r.1 == plan_choice) with
    | [] => 0
    | r :: _ => r.2
  else 0

/-- Embeds `render_risk_tolerance` (lines 95–168): sum of the question-3..6
scores plus the plan points, capped at 40 (`min(..., 40)` at line 165). -/
def render_risk_tolerance (df_q7 : PlanTable) (a3 a4 a5 a6 plan_choice : String) : Int :=
  min (score_from_radio q3_table a3 + score_from_radio q4_table a4 +
       score_from_radio q5_table a5 + score_from_radio q6_table a6 +
       q7_points df_q7 plan_choice) 40

/-- One row of `Risk_profile_matrix.csv`: its `Time_horizon_score` value and
the remaining cells as an (column name → cell text) association list. -/
structure MatrixRow where
  th : Int
  cells : List (String × String)
deriving Repr, DecidableEq

/-- The `Risk_profile_matrix.csv` dataframe: the list of column names and the
rows in file order. -/
structure RiskMatrix where
  columns : List String
  rows : List MatrixRow
deriving Repr, DecidableEq

/-- Python `str.lower` (the labels involved are ASCII): character-wise
lowercasing of the string. -/
def lower (s : String) : String :=
  ⟨s.data.map Char.toLower⟩

/-- Python `str.strip`: drop leading and trailing whitespace. -/
def strip (s : String) : String :=
  ⟨((s.data.dropWhile Char.isWhitespace).reverse.dropWhile Char.isWhitespace).reverse⟩

/-- Reading cell `col` of matrix row `r` (`row[col_name].iloc[0]` after the
column-presence check; every pandas row has every column of the frame, so the
default is never reached on well-formed input). -/
def getCell (r : MatrixRow) (col : String) : String :=
  (r.cells.lookup col).getD ""

/-- One row of `Portfolio_type.csv`.  The three return statistics are carried
as raw cell text (they are only displayed); the five asset-class weights are
`Option Int`: `none` models a missing or non-numeric cell (pandas `NaN` after
`to_numeric(errors="coerce")`), `some n` a numeric cell. -/
structure CatalogRow where
  type_name : String
  investor_type : String
  average_annual_return : String
  best_year : String
  worst_year : String
  large_cap_equity : Option Int
  small_cap_equity : Option Int
  international_equity : Option Int
  fixed_income : Option Int
  cash_investments : Option Int
deriving Repr, DecidableEq

/-- The `Portfolio_type.csv` dataframe: rows in file order plus flags for the
presence of the `type_name` column, the `investor_type` column, the three
return-statistics columns, and the five composition columns. -/
structure Catalog where
  hasTypeNameCol : Bool
  hasInvestorTypeCol : Bool
  hasReturnsCols : Bool
  hasCompCols : Bool
  rows : List CatalogRow
deriving Repr, DecidableEq

/-- `pd.to_numeric(..., errors="coerce").fillna(0).astype(int)` applied to one
weight cell (line 256): a non-numeric/missing cell becomes 0, a numeric value
is kept as its integer value. -/
def coerceWeight (w : Option Int) : Int :=
  w.getD 0

/-- The five (display asset-class name, coerced weight) pairs in catalog
column order (comp_cols, lines 243–249, names renamed by
`" ".join(c.split("_")).capitalize()`). -/
def comp_pairs (c : CatalogRow) : List (String × Int) :=
  [("Large cap equity", coerceWeight c.large_cap_equity),
   ("Small cap equity", coerceWeight c.small_cap_equity),
   ("International equity", coerceWeight c.international_equity),
   ("Fixed income", coerceWeight c.fixed_income),
   ("Cash investments", coerceWeight c.cash_investments)]

/-- The weight order used to sort the composition table. -/
def weight_le (a b : String × Int) : Prop :=
  a.2 ≤ b.2

instance : DecidableRel weight_le :=
  fun a b => inferInstanceAs (Decidable (a.2 ≤ b.2))

instance : IsTotal (String × Int) weight_le :=
  ⟨fun a b => le_total a.2 b.2⟩

instance : IsTrans (String × Int) weight_le :=
  ⟨fun _ _ _ h1 h2 => le_trans h1 h2⟩

/-- Embeds `comp.sort_values(by="Weight", ascending=False)` (line 257).
For `ascending=False` pandas' `nargsort` first reverses the value and index
arrays, then takes the ascending argsort, then reverses the resulting indexer
(`indexer = indexer[::-1]`) — the double reversal that makes descending sorts
stable (pandas GH #6399, `test_stable_descending_sort`).  For arrays shorter
than 16 elements numpy's `argsort(kind="quicksort")` runs exactly a stable
insertion sort, so the net result is the stable descending order: ties keep
their original (catalog) order.  The definition mirrors that pipeline:
reverse, stable ascending insertion sort by weight, reverse. -/
def sort_values_desc (l : List (String × Int)) : List (String × Int) :=
  (l.reverse.insertionSort weight_le).reverse

/-- What `show_portfolio` renders on success: the normalised portfolio-type
key, the optional description, the optional return statistics, and the
optional sorted composition (each present only when its columns exist). -/
structure Display where
  portfolio_type : String
  description : Option String
  returns : Option (String × String × String)
  composition : Option (List (String × Int))
deriving Repr, DecidableEq

/-- Builds the `Display` for the matched catalog row (lines 216–262). -/
def mkDisplay (cat : Catalog) (portfolio_type : String) (c : CatalogRow) : Display :=
  { portfolio_type := portfolio_type
    description := if cat.hasInvestorTypeCol then some c.investor_type else none
    returns :=
      if cat.hasReturnsCols then some (c.average_annual_return, c.best_year, c.worst_year)
      else none
    composition := if cat.hasCompCols then some (sort_values_desc (comp_pairs c)) else none }

/-- The terminal outcome of `show_portfolio`: one constructor per `st.stop`
site, in source order, plus the successful display. -/
inductive ShowResult where
  | stopEmptyData : ShowResult
  | stopMissingThsColumn : ShowResult
  | stopNoRtsColumn : String → ShowResult
  | stopNoThsRow : Int → ShowResult
  | stopMissingTypeNameColumn : ShowResult
  | stopNoCatalogRow : String → ShowResult
  | display : Display → ShowResult
deriving Repr, DecidableEq

/-- Embeds `show_portfolio` (lines 174–273), preserving the source's check
order: empty dataframes (line 178), missing `Time_horizon_score` column
(line 182), missing risk-tolerance column `str(risk_tolerance_score)`
(line 188), missing time-horizon row (line 195), missing `type_name` column
(line 206), missing catalog row (line 212), then the display. -/
def show_portfolio (m : RiskMatrix) (cat : Catalog) (ths rts : Int) : ShowResult :=
  if m.rows.isEmpty || cat.rows.isEmpty then .stopEmptyData
  else if !(m.columns.contains "Time_horizon_score") then .stopMissingThsColumn
  else if !(m.columns.contains (toString rts)) then .stopNoRtsColumn (toString rts)
  else
    match m.rows.find? (fun r => r.th == ths) with
    | none => .stopNoThsRow ths
    | some row =>
      let portfolio_type := lower (strip (getCell row (toString rts)))
      if !cat.hasTypeNameCol then .stopMissingTypeNameColumn
      else
        match cat.rows.find? (fun c => lower c.type_name == portfolio_type) with
        | none => .stopNoCatalogRow portfolio_type
        | some c => .display (mkDisplay cat portfolio_type c)

/-- The questionnaire selections: one label per question plus the plan
choice. -/
structure Answers where
  a1 : String
  a2 : String
  a3 : String
  a4 : String
  a5 : String
  a6 : String
  plan : String
deriving Repr, DecidableEq

/-- The outcome of one evaluation in `main` (lines 279–312): either the fixed
short-horizon allocation (percent short-term bonds, percent cash from the
`st.info` text at line 302), or the assessed pair of scores together with the
portfolio resolution result. -/
inductive MainResult where
  | fixedAllocation : Int → Int → MainResult
  | assessed : Int → Int → ShowResult → MainResult
deriving Repr, DecidableEq

/-- Embeds `main` (lines 279–312): compute the time-horizon score; if it is
below 3, return the fixed 40% short-term-bonds / 60% cash recommendation
without computing the risk-tolerance score or touching the matrix/catalog;
otherwise compute the risk-tolerance score and resolve the portfolio. -/
def main (ans : Answers) (df_q7 : PlanTable) (m : RiskMatrix) (cat : Catalog) : MainResult :=
  let ths := render_time_horizon ans.a1 ans.a2
  if ths < 3 then .fixedAllocation 40 60
  else
    let rts := render_risk_tolerance df_q7 ans.a3 ans.a4 ans.a5 ans.a6 ans.plan
    .assessed ths rts (show_portfolio m cat ths rts)

/-! ## Theorems -/

/-- C1: for every valid answer selection (one label per question q3..q6 and a
selected plan), the computed risk_tolerance_score equals
min(score(q3) + score(q4) + score(q5) + score(q6) + plan_points, 40); a raw
sum of 45 yields 40, and the cap applies regardless of how high the raw sum
is. -/
theorem risk_tolerance_capped_sum (df_q7 : PlanTable) (a3 a4 a5 a6 plan_choice : String) :
    render_risk_tolerance df_q7 a3 a4 a5 a6 plan_choice =
      min (score_from_radio q3_table a3 + score_from_radio q4_table a4 +
           score_from_radio q5_table a5 + score_from_radio q6_table a6 +
           q7_points df_q7 plan_choice) 40 ∧
    (score_from_radio q3_table a3 + score_from_radio q4_table a4 +
       score_from_radio q5_table a5 + score_from_radio q6_table a6 +
       q7_points df_q7 plan_choice = 45 →
      render_risk_tolerance df_q7 a3 a4 a5 a6 plan_choice = 40) ∧
    (40 ≤ score_from_radio q3_table a3 + score_from_radio q4_table a4 +
       score_from_radio q5_table a5 + score_from_radio q6_table a6 +
       q7_points df_q7 plan_choice →
      render_risk_tolerance df_q7 a3 a4 a5 a6 plan_choice = 40) := by
  refine ⟨rfl, fun h => ?_, fun h => ?_⟩
  · rw [render_risk_tolerance, h]; decide
  · rw [render_risk_tolerance, min_eq_right h]

/-- Witness for C1 at a concrete raw sum of 45
(10 + 8 + 8 + 8 + 11 plan points): the result is the cap 40. -/
theorem risk_tolerance_capped_sum_witness :
    render_risk_tolerance ⟨true, true, [("Plan E", 11)]⟩ "Extensive"
      "Take above average risks expecting to earn above average returns"
      "International securities and/or international funds" "Buy more shares" "Plan E" = 40 :=
  (risk_tolerance_capped_sum ⟨true, true, [("Plan E", 11)]⟩ "Extensive"
      "Take above average risks expecting to earn above average returns"
      "International securities and/or international funds" "Buy more shares" "Plan E").2.1
    (by decide)

/-- C3: for every valid answer selection, time_horizon_score equals exactly
score(q1) + score(q2) with no cap applied (the maximal selection really
yields the full raw sum 18). -/
theorem time_horizon_plain_sum (a1 a2 : String) :
    render_time_horizon a1 a2 =
      score_from_radio q1_table a1 + score_from_radio q2_table a2 ∧
    render_time_horizon "11 years or more" "11 years or more" = 18 :=
  ⟨rfl, by decide⟩

/-- C2: whenever time_horizon_score < 3, `main` short-circuits: the result is
the fixed 40% short-term-bond / 60% cash allocation (so no risk-tolerance
score and no table lookup appear in the outcome), and the outcome is the same
whatever the risk-tolerance answers, plan table, matrix and catalog are. -/
theorem short_horizon_fixed_allocation (ans : Answers) (df_q7 : PlanTable) (m : RiskMatrix)
    (cat : Catalog) (h : render_time_horizon ans.a1 ans.a2 < 3) :
    main ans df_q7 m cat = .fixedAllocation 40 60 ∧
    ∀ (df_q7' : PlanTable) (m' : RiskMatrix) (cat' : Catalog) (a3 a4 a5 a6 plan : String),
      main { ans with a3 := a3, a4 := a4, a5 := a5, a6 := a6, plan := plan } df_q7' m' cat' =
        .fixedAllocation 40 60 := by
  constructor
  · simp [main, h]
  · intro df_q7' m' cat' a3 a4 a5 a6 plan
    simp [main, h]

/-- Witness for C2 at a concrete selection with time-horizon score 1 < 3. -/
theorem short_horizon_fixed_allocation_witness :
    main ⟨"Less than 3 years", "Less than 2 years", "None",
          "Take lower than average risks expecting to earn lower than average returns",
          "Bonds and/or bond funds", "Sell all of my shares", "A"⟩
        ⟨true, true, []⟩ ⟨[], []⟩ ⟨true, true, true, true, []⟩ = .fixedAllocation 40 60 :=
  (short_horizon_fixed_allocation
      ⟨"Less than 3 years", "Less than 2 years", "None",
        "Take lower than average risks expecting to earn lower than average returns",
        "Bonds and/or bond funds", "Sell all of my shares", "A"⟩
      ⟨true, true, []⟩ ⟨[], []⟩ ⟨true, true, true, true, []⟩ (by decide)).1

/-- C7: for every question table and every selected label, the score is the
integer the table maps that label to, and any unrecognized label maps to 0
(the function is total, so no error is raised). -/
theorem score_from_radio_defaults (options_to_points : List (String × Int)) (choice : String) :
    (∀ v, options_to_points.lookup choice = some v →
        score_from_radio options_to_points choice = v) ∧
    (options_to_points.lookup choice = none →
        score_from_radio options_to_points choice = 0) := by
  refine ⟨fun v h => ?_, fun h => ?_⟩ <;> simp [score_from_radio, h]

/-- Witness for C7: question 3's label "Good" scores 7, and an unknown label
scores 0. -/
theorem score_from_radio_defaults_witness :
    score_from_radio q3_table "Good" = 7 ∧ score_from_radio q3_table "Unselected" = 0 :=
  ⟨(score_from_radio_defaults q3_table "Good").1 7 (by decide),
   (score_from_radio_defaults q3_table "Unselected").2 (by decide)⟩

/-- C8: the plan contribution is the selected plan's Points value (from the
first matching row); a missing/empty table, a missing `Plan` or `Points`
column, or an unmatched plan label all contribute 0; and risk-tolerance
scoring continues with that (possibly 0) contribution — `q7_points` and
`render_risk_tolerance` are total, so no crash occurs. -/
theorem plan_points_defaults (df_q7 : PlanTable) (plan_choice : String) :
    (df_q7.rows = [] → q7_points df_q7 plan_choice = 0) ∧
    (df_q7.hasPlanCol = false → q7_points df_q7 plan_choice = 0) ∧
    (df_q7.hasPointsCol = false → q7_points df_q7 plan_choice = 0) ∧
    (df_q7.rows.filter (fun r => r.1 == plan_choice) = [] → q7_points df_q7 plan_choice = 0) ∧
    (∀ p rest, df_q7.hasPlanCol = true → df_q7.hasPointsCol = true →
        df_q7.rows.filter (fun r => r.1 == plan_choice) = p :: rest →
        q7_points df_q7 plan_choice = p.2) ∧
    (∀ a3 a4 a5 a6, render_risk_tolerance df_q7 a3 a4 a5 a6 plan_choice =
        min (score_from_radio q3_table a3 + score_from_radio q4_table a4 +
             score_from_radio q5_table a5 + score_from_radio q6_table a6 +
             q7_points df_q7 plan_choice) 40) := by
  refine ⟨fun h => ?_, fun h => ?_, fun h => ?_, fun h => ?_, fun p rest h1 h2 h3 => ?_,
    fun a3 a4 a5 a6 => rfl⟩
  · simp [q7_points, h]
  · simp [q7_points, h]
  · simp [q7_points, h]
  · simp [q7_points, h]
  · obtain ⟨hp, hpt, rows⟩ := df_q7
    cases h1; cases h2
    cases rows with
    | nil => simp at h3
    | cons r rs =>
      simp only [q7_points, List.isEmpty_cons, Bool.not_false, Bool.and_self, if_true] at h3 ⊢
      rw [h3]

/-- Witness for C8: a matched plan contributes its Points (first matching
row), an unmatched plan and a malformed table contribute 0, and the score is
still computed. -/
theorem plan_points_defaults_witness :
    q7_points ⟨true, true, [("Plan A", 3), ("Plan B", 9)]⟩ "Plan B" = 9 ∧
    q7_points ⟨true, true, [("Plan A", 3), ("Plan B", 9)]⟩ "Plan Z" = 0 ∧
    q7_points ⟨true, false, [("Plan A", 3)]⟩ "Plan A" = 0 ∧
    render_risk_tolerance ⟨true, true, [("Plan A", 3), ("Plan B", 9)]⟩
      "None"
      "Take lower than average risks expecting to earn lower than average returns"
      "Bonds and/or bond funds" "Sell all of my shares" "Plan Z" =
      min (score_from_radio q3_table "None" +
           score_from_radio q4_table
             "Take lower than average risks expecting to earn lower than average returns" +
           score_from_radio q5_table "Bonds and/or bond funds" +
           score_from_radio q6_table "Sell all of my shares" +
           q7_points ⟨true, true, [("Plan A", 3), ("Plan B", 9)]⟩ "Plan Z") 40 :=
  ⟨(plan_points_defaults ⟨true, true, [("Plan A", 3), ("Plan B", 9)]⟩ "Plan B").2.2.2.2.1
      ("Plan B", 9) [] rfl rfl (by decide),
   (plan_points_defaults ⟨true, true, [("Plan A", 3), ("Plan B", 9)]⟩ "Plan Z").2.2.2.1
      (by decide),
   (plan_points_defaults ⟨true, false, [("Plan A", 3)]⟩ "Plan A").2.2.1 rfl,
   (plan_points_defaults ⟨true, true, [("Plan A", 3), ("Plan B", 9)]⟩ "Plan Z").2.2.2.2.2
      "None"
      "Take lower than average risks expecting to earn lower than average returns"
      "Bonds and/or bond funds" "Sell all of my shares"⟩

/-- C4: with the reference tables present and well-formed, an exact-match
failure at any of the three resolution steps — missing risk-tolerance column,
missing time-horizon row, or missing catalog row — makes `show_portfolio`
halt with the corresponding user-visible warning, and never produces a
displayed (default / nearest-match / fallback) portfolio. -/
theorem lookup_miss_halts (m : RiskMatrix) (cat : Catalog) (ths rts : Int)
    (hm : m.rows ≠ []) (hcat : cat.rows ≠ [])
    (hth : "Time_horizon_score" ∈ m.columns) :
    (toString rts ∉ m.columns →
        show_portfolio m cat ths rts = .stopNoRtsColumn (toString rts) ∧
        ∀ d, show_portfolio m cat ths rts ≠ .display d) ∧
    (toString rts ∈ m.columns →
        m.rows.find? (fun r => r.th == ths) = none →
        show_portfolio m cat ths rts = .stopNoThsRow ths ∧
        ∀ d, show_portfolio m cat ths rts ≠ .display d) ∧
    (∀ row, toString rts ∈ m.columns →
        m.rows.find? (fun r => r.th == ths) = some row →
        cat.hasTypeNameCol = true →
        cat.rows.find?
            (fun c => lower c.type_name == lower (strip (getCell row (toString rts)))) =
          none →
        show_portfolio m cat ths rts =
          .stopNoCatalogRow (lower (strip (getCell row (toString rts)))) ∧
        ∀ d, show_portfolio m cat ths rts ≠ .display d) := by
  have hm' : m.rows.isEmpty = false := by
    cases h : m.rows with
    | nil => exact absurd h hm
    | cons a l => rfl
  have hcat' : cat.rows.isEmpty = false := by
    cases h : cat.rows with
    | nil => exact absurd h hcat
    | cons a l => rfl
  refine ⟨fun hcol => ?_, fun hcol hrow => ?_, fun row hcol hrow htn hfind => ?_⟩
  · have h : show_portfolio m cat ths rts = .stopNoRtsColumn (toString rts) := by
      simp [show_portfolio, hm', hcat', hth, hcol]
    exact ⟨h, fun d hd => by rw [h] at hd; exact ShowResult.noConfusion hd⟩
  · have h : show_portfolio m cat ths rts = .stopNoThsRow ths := by
      simp [show_portfolio, hm', hcat', hth, hcol, hrow]
    exact ⟨h, fun d hd => by rw [h] at hd; exact ShowResult.noConfusion hd⟩
  · have h : show_portfolio m cat ths rts =
        .stopNoCatalogRow (lower (strip (getCell row (toString rts)))) := by
      simp [show_portfolio, hm', hcat', hth, hcol, hrow, htn, hfind]
    exact ⟨h, fun d hd => by rw [h] at hd; exact ShowResult.noConfusion hd⟩

/-- Witness for C4: the spec's example — risk tolerance 41 when the highest
matrix column is "40" — halts with the missing-column warning and is not any
display. -/
theorem lookup_miss_halts_witness :
    show_portfolio ⟨["Time_horizon_score", "40"], [⟨5, [("40", "aggressive")]⟩]⟩
        ⟨true, true, true, true,
         [⟨"aggressive", "Aggressive investor", "9.6", "36.7", "-26.6",
           some 60, some 25, some 15, some 0, some 0⟩]⟩ 5 41 =
      .stopNoRtsColumn "41" ∧
    show_portfolio ⟨["Time_horizon_score", "40"], [⟨5, [("40", "aggressive")]⟩]⟩
        ⟨true, true, true, true,
         [⟨"aggressive", "Aggressive investor", "9.6", "36.7", "-26.6",
           some 60, some 25, some 15, some 0, some 0⟩]⟩ 5 41 ≠
      .display ⟨"aggressive", none, none, none⟩ := by
  have h := (lookup_miss_halts ⟨["Time_horizon_score", "40"], [⟨5, [("40", "aggressive")]⟩]⟩
      ⟨true, true, true, true,
       [⟨"aggressive", "Aggressive investor", "9.6", "36.7", "-26.6",
         some 60, some 25, some 15, some 0, some 0⟩]⟩ 5 41
      (by decide) (by decide) (by decide)).1 (by decide)
  exact ⟨h.1, h.2 ⟨"aggressive", none, none, none⟩⟩

/-- C5 counterexample: a matrix that has neither the time-horizon row (4) nor
the risk-tolerance column ("21").  The claim says the missing row is
reported; the code checks the column first (line 188) and reports the missing
column. -/
theorem column_reported_before_row_cex :
    show_portfolio ⟨["Time_horizon_score", "20"], [⟨5, [("20", "growth")]⟩]⟩
        ⟨true, true, true, true,
         [⟨"growth", "Growth investor", "8.6", "30.9", "-19.4",
           some 50, some 20, some 10, some 15, some 5⟩]⟩ 4 21 =
      .stopNoRtsColumn "21" ∧
    show_portfolio ⟨["Time_horizon_score", "20"], [⟨5, [("20", "growth")]⟩]⟩
        ⟨true, true, true, true,
         [⟨"growth", "Growth investor", "8.6", "30.9", "-19.4",
           some 50, some 20, some 10, some 15, some 5⟩]⟩ 4 21 ≠
      .stopNoThsRow 4 := by
  constructor
  · decide
  · decide

/-- C5 amended: with the tables present and well-formed, the resolver first
checks that the column named by the decimal string of the risk-tolerance
score exists, failing there if not (even when the time-horizon row is also
absent); only then does it look for the matrix row whose time-horizon column
equals the score exactly, failing if none exists; and only from that first
matching row does it read the cell that drives the catalog lookup. -/
theorem column_checked_before_row (m : RiskMatrix) (cat : Catalog) (ths rts : Int)
    (hm : m.rows ≠ []) (hcat : cat.rows ≠ [])
    (hth : "Time_horizon_score" ∈ m.columns) :
    (toString rts ∉ m.columns →
        show_portfolio m cat ths rts = .stopNoRtsColumn (toString rts)) ∧
    (toString rts ∈ m.columns →
        m.rows.find? (fun r => r.th == ths) = none →
        show_portfolio m cat ths rts = .stopNoThsRow ths) ∧
    (∀ row, toString rts ∈ m.columns →
        m.rows.find? (fun r => r.th == ths) = some row →
        cat.hasTypeNameCol = true →
        (show_portfolio m cat ths rts =
            .stopNoCatalogRow (lower (strip (getCell row (toString rts)))) ∨
         ∃ d, show_portfolio m cat ths rts = .display d ∧
            d.portfolio_type = lower (strip (getCell row (toString rts))))) := by
  have hm' : m.rows.isEmpty = false := by
    cases h : m.rows with
    | nil => exact absurd h hm
    | cons a l => rfl
  have hcat' : cat.rows.isEmpty = false := by
    cases h : cat.rows with
    | nil => exact absurd h hcat
    | cons a l => rfl
  refine ⟨fun hcol => ?_, fun hcol hrow => ?_, fun row hcol hrow htn => ?_⟩
  · simp [show_portfolio, hm', hcat', hth, hcol]
  · simp [show_portfolio, hm', hcat', hth, hcol, hrow]
  · cases hfind : cat.rows.find?
        (fun c => lower c.type_name == lower (strip (getCell row (toString rts)))) with
    | none =>
      left
      simp [show_portfolio, hm', hcat', hth, hcol, hrow, htn, hfind]
    | some c =>
      right
      refine ⟨mkDisplay cat (lower (strip (getCell row (toString rts)))) c, ?_, rfl⟩
      simp [show_portfolio, hm', hcat', hth, hcol, hrow, htn, hfind]

/-- Witness for the amended C5 at the counterexample's input: the missing
column is what gets reported although the row is missing too. -/
theorem column_checked_before_row_witness :
    show_portfolio ⟨["Time_horizon_score", "30"], [⟨6, [("30", "moderate")]⟩]⟩
        ⟨true, true, true, true,
         [⟨"moderate", "Moderate investor", "7.8", "28.8", "-14.0",
           some 35, some 10, some 15, some 35, some 5⟩]⟩ 4 31 =
      .stopNoRtsColumn "31" :=
  (column_checked_before_row ⟨["Time_horizon_score", "30"], [⟨6, [("30", "moderate")]⟩]⟩
      ⟨true, true, true, true,
       [⟨"moderate", "Moderate investor", "7.8", "28.8", "-14.0",
         some 35, some 10, some 15, some 35, some 5⟩]⟩ 4 31
      (by decide) (by decide) (by decide)).1 (by decide)

/-- Auxiliary: a successful `find?` is unchanged by appending further
elements. -/
theorem find?_append_left {α : Type} {p : α → Bool} {l : List α} {a : α} (l' : List α)
    (h : l.find? p = some a) : (l ++ l').find? p = some a := by
  induction l with
  | nil => simp at h
  | cons x xs ih =>
    rw [List.cons_append]
    by_cases hx : p x = true
    · rw [List.find?_cons_of_pos _ hx] at h ⊢
      exact h
    · rw [List.find?_cons_of_neg _ hx] at h ⊢
      exact ih h

/-- Auxiliary: `find?` returns the first element satisfying the predicate. -/
theorem find?_first_match {α : Type} {p : α → Bool} (pre : List α) (a : α) (post : List α)
    (hpre : ∀ x ∈ pre, p x = false) (ha : p a = true) :
    (pre ++ a :: post).find? p = some a := by
  induction pre with
  | nil => simpa using List.find?_cons_of_pos post ha
  | cons x xs ih =>
    rw [List.cons_append, List.find?_cons_of_neg]
    · exact ih fun y hy => hpre y (List.mem_cons_of_mem x hy)
    · simp [hpre x (List.mem_cons_self x xs)]

/-- C10: when reference tables contain duplicate keys, the first matching row
in table order wins: the matrix-row lookup and the catalog lookup both return
the first matching row, and appending further (e.g. duplicate) rows after a
found match never changes the result of `show_portfolio`. -/
theorem first_duplicate_wins (m : RiskMatrix) (cat : Catalog) (ths rts : Int) :
    (∀ pre r post, m.rows = pre ++ r :: post → (∀ r' ∈ pre, r'.th ≠ ths) → r.th = ths →
        m.rows.find? (fun x => x.th == ths) = some r) ∧
    (∀ pt pre c post, cat.rows = pre ++ c :: post →
        (∀ c' ∈ pre, lower c'.type_name ≠ pt) → lower c.type_name = pt →
        cat.rows.find? (fun x => lower x.type_name == pt) = some c) ∧
    (∀ extra r, m.rows.find? (fun x => x.th == ths) = some r →
        show_portfolio ⟨m.columns, m.rows ++ extra⟩ cat ths rts =
          show_portfolio m cat ths rts) ∧
    (∀ extra row c, m.rows.find? (fun x => x.th == ths) = some row →
        cat.rows.find?
            (fun x => lower x.type_name == lower (strip (getCell row (toString rts)))) =
          some c →
        show_portfolio m ⟨cat.hasTypeNameCol, cat.hasInvestorTypeCol, cat.hasReturnsCols,
            cat.hasCompCols, cat.rows ++ extra⟩ ths rts =
          show_portfolio m cat ths rts) := by
  refine ⟨fun pre r post hrows hpre hr => ?_, fun pt pre c post hrows hpre hc => ?_,
    fun extra r hfind => ?_, fun extra row c hrow hfind => ?_⟩
  · rw [hrows]
    exact find?_first_match pre r post
      (fun x hx => by simp [hpre x hx]) (by simp [hr])
  · rw [hrows]
    exact find?_first_match pre c post
      (fun x hx => by simp [hpre x hx]) (by simp [hc])
  · have hne : m.rows.isEmpty = false := by
      cases h : m.rows with
      | nil => rw [h] at hfind; simp at hfind
      | cons a l => rfl
    have hne2 : (m.rows ++ extra).isEmpty = false := by
      cases h : m.rows with
      | nil => rw [h] at hfind; simp at hfind
      | cons a l => rfl
    have hfind2 : (m.rows ++ extra).find? (fun x => x.th == ths) = some r :=
      find?_append_left extra hfind
    simp [show_portfolio, hne, hne2, hfind, hfind2]
  · have hne : cat.rows.isEmpty = false := by
      cases h : cat.rows with
      | nil => rw [h] at hfind; simp at hfind
      | cons a l => rfl
    have hne2 : (cat.rows ++ extra).isEmpty = false := by
      cases h : cat.rows with
      | nil => rw [h] at hfind; simp at hfind
      | cons a l => rfl
    have hfind2 : (cat.rows ++ extra).find?
        (fun x => lower x.type_name == lower (strip (getCell row (toString rts)))) =
          some c :=
      find?_append_left extra hfind
    simp [show_portfolio, hne, hne2, hrow, hfind, hfind2, mkDisplay]

/-- Witness for C10: with two matrix rows sharing time-horizon score 5 and
two catalog rows both named "growth", the first of each wins, and appending
the duplicates does not change the resolved result. -/
theorem first_duplicate_wins_witness :
    ([⟨5, [("20", "growth")]⟩, ⟨5, [("20", "aggressive")]⟩] :
        List MatrixRow).find? (fun x => x.th == 5) = some ⟨5, [("20", "growth")]⟩ ∧
    ([⟨"growth", "first", "8.6", "30.9", "-19.4", some 50, some 20, some 10, some 15, some 5⟩,
      ⟨"growth", "second", "0", "0", "0", some 1, some 2, some 3, some 4, some 5⟩] :
        List CatalogRow).find? (fun x => lower x.type_name == "growth") =
      some ⟨"growth", "first", "8.6", "30.9", "-19.4", some 50, some 20, some 10, some 15,
        some 5⟩ ∧
    show_portfolio
        ⟨["Time_horizon_score", "20"],
         [⟨5, [("20", "growth")]⟩] ++ [⟨5, [("20", "aggressive")]⟩]⟩
        ⟨true, true, true, true,
         [⟨"growth", "first", "8.6", "30.9", "-19.4", some 50, some 20, some 10, some 15,
           some 5⟩]⟩ 5 20 =
      show_portfolio ⟨["Time_horizon_score", "20"], [⟨5, [("20", "growth")]⟩]⟩
        ⟨true, true, true, true,
         [⟨"growth", "first", "8.6", "30.9", "-19.4", some 50, some 20, some 10, some 15,
           some 5⟩]⟩ 5 20 := by
  refine ⟨?_, ?_, ?_⟩
  · exact (first_duplicate_wins ⟨["Time_horizon_score", "20"],
        [⟨5, [("20", "growth")]⟩, ⟨5, [("20", "aggressive")]⟩]⟩
        ⟨true, true, true, true, []⟩ 5 20).1 [] ⟨5, [("20", "growth")]⟩
        [⟨5, [("20", "aggressive")]⟩] rfl (by simp) rfl
  · exact (first_duplicate_wins ⟨[], []⟩
        ⟨true, true, true, true,
         [⟨"growth", "first", "8.6", "30.9", "-19.4", some 50, some 20, some 10, some 15,
           some 5⟩,
          ⟨"growth", "second", "0", "0", "0", some 1, some 2, some 3, some 4, some 5⟩]⟩
        5 20).2.1 "growth" []
        ⟨"growth", "first", "8.6", "30.9", "-19.4", some 50, some 20, some 10, some 15, some 5⟩
        [⟨"growth", "second", "0", "0", "0", some 1, some 2, some 3, some 4, some 5⟩]
        rfl (by simp) (by decide)
  · exact (first_duplicate_wins ⟨["Time_horizon_score", "20"], [⟨5, [("20", "growth")]⟩]⟩
        ⟨true, true, true, true,
         [⟨"growth", "first", "8.6", "30.9", "-19.4", some 50, some 20, some 10, some 15,
           some 5⟩]⟩ 5 20).2.2.1 [⟨5, [("20", "aggressive")]⟩] ⟨5, [("20", "growth")]⟩
        (by decide)

/-- Cell association lists equal up to stripping/case of the cell text: same
column keys, same values after `strip` then `lower`. -/
def cellsCaseEquiv : List (String × String) → List (String × String) → Bool
  | [], [] => true
  | (k, v) :: xs, (k', v') :: ys =>
    k == k' && lower (strip v) == lower (strip v') && cellsCaseEquiv xs ys
  | _, _ => false

/-- Matrix row lists equal up to stripping/case of their cell texts. -/
def rowsCaseEquiv : List MatrixRow → List MatrixRow → Bool
  | [], [] => true
  | r :: xs, r' :: ys =>
    r.th == r'.th && cellsCaseEquiv r.cells r'.cells && rowsCaseEquiv xs ys
  | _, _ => false

/-- Matrices equal up to stripping/case of their cell texts. -/
def matrixCaseEquiv (m m' : RiskMatrix) : Bool :=
  m.columns == m'.columns && rowsCaseEquiv m.rows m'.rows

/-- Catalog rows equal up to the case of `type_name` (every other field is
equal on the nose). -/
def catRowCaseEquiv (c c' : CatalogRow) : Bool :=
  lower c.type_name == lower c'.type_name && c.investor_type == c'.investor_type &&
  c.average_annual_return == c'.average_annual_return && c.best_year == c'.best_year &&
  c.worst_year == c'.worst_year && c.large_cap_equity == c'.large_cap_equity &&
  c.small_cap_equity == c'.small_cap_equity &&
  c.international_equity == c'.international_equity &&
  c.fixed_income == c'.fixed_income && c.cash_investments == c'.cash_investments

/-- Catalog row lists equal up to the case of their `type_name` values. -/
def catRowsCaseEquiv : List CatalogRow → List CatalogRow → Bool
  | [], [] => true
  | c :: xs, c' :: ys => catRowCaseEquiv c c' && catRowsCaseEquiv xs ys
  | _, _ => false

/-- Catalogs equal up to the case of their `type_name` values. -/
def catalogCaseEquiv (cat cat' : Catalog) : Bool :=
  cat.hasTypeNameCol == cat'.hasTypeNameCol &&
  cat.hasInvestorTypeCol == cat'.hasInvestorTypeCol &&
  cat.hasReturnsCols == cat'.hasReturnsCols &&
  cat.hasCompCols == cat'.hasCompCols &&
  catRowsCaseEquiv cat.rows cat'.rows

theorem cellsCaseEquiv_lookup {xs ys : List (String × String)}
    (h : cellsCaseEquiv xs ys = true) (k : String) :
    lower (strip ((xs.lookup k).getD "")) = lower (strip ((ys.lookup k).getD "")) := by
  induction xs generalizing ys with
  | nil =>
    cases ys with
    | nil => rfl
    | cons y ys => simp [cellsCaseEquiv] at h
  | cons x xs ih =>
    cases ys with
    | nil => simp [cellsCaseEquiv] at h
    | cons y ys =>
      obtain ⟨k1, v1⟩ := x
      obtain ⟨k2, v2⟩ := y
      simp only [cellsCaseEquiv, Bool.and_eq_true, beq_iff_eq] at h
      obtain ⟨⟨h1, h2⟩, h3⟩ := h
      subst h1
      by_cases hk : (k == k1) = true
      · simp [List.lookup, hk, h2]
      · rw [Bool.not_eq_true] at hk
        simp only [List.lookup, hk]
        exact ih h3

theorem getCell_caseEquiv {r r' : MatrixRow} (h : cellsCaseEquiv r.cells r'.cells = true)
    (col : String) : lower (strip (getCell r col)) = lower (strip (getCell r' col)) :=
  cellsCaseEquiv_lookup h col

theorem rowsCaseEquiv_isEmpty {xs ys : List MatrixRow} (h : rowsCaseEquiv xs ys = true) :
    xs.isEmpty = ys.isEmpty := by
  cases xs <;> cases ys <;> simp_all [rowsCaseEquiv]

theorem catRowsCaseEquiv_isEmpty {xs ys : List CatalogRow}
    (h : catRowsCaseEquiv xs ys = true) : xs.isEmpty = ys.isEmpty := by
  cases xs <;> cases ys <;> simp_all [catRowsCaseEquiv]

theorem rowsCaseEquiv_find? {xs ys : List MatrixRow} (h : rowsCaseEquiv xs ys = true)
    (ths : Int) :
    (xs.find? (fun r => r.th == ths) = none ∧ ys.find? (fun r => r.th == ths) = none) ∨
    ∃ r r', xs.find? (fun r => r.th == ths) = some r ∧
      ys.find? (fun r => r.th == ths) = some r' ∧ r.th = r'.th ∧
      cellsCaseEquiv r.cells r'.cells = true := by
  induction xs generalizing ys with
  | nil =>
    cases ys with
    | nil => exact Or.inl ⟨rfl, rfl⟩
    | cons y ys => simp [rowsCaseEquiv] at h
  | cons x xs ih =>
    cases ys with
    | nil => simp [rowsCaseEquiv] at h
    | cons y ys =>
      simp only [rowsCaseEquiv, Bool.and_eq_true, beq_iff_eq] at h
      obtain ⟨⟨h1, h2⟩, h3⟩ := h
      by_cases hx : (x.th == ths) = true
      · refine Or.inr ⟨x, y, List.find?_cons_of_pos _ hx,
          List.find?_cons_of_pos _ (by rw [show y.th = x.th from h1.symm]; exact hx), h1, h2⟩
      · rw [Bool.not_eq_true] at hx
        have hy : (y.th == ths) = false := by
          rw [show y.th = x.th from h1.symm]; exact hx
        simp only [List.find?, hx, hy]
        exact ih h3

theorem catRowCaseEquiv_fields {c c' : CatalogRow} (h : catRowCaseEquiv c c' = true) :
    lower c.type_name = lower c'.type_name ∧ c.investor_type = c'.investor_type ∧
    c.average_annual_return = c'.average_annual_return ∧ c.best_year = c'.best_year ∧
    c.worst_year = c'.worst_year ∧ c.large_cap_equity = c'.large_cap_equity ∧
    c.small_cap_equity = c'.small_cap_equity ∧
    c.international_equity = c'.international_equity ∧
    c.fixed_income = c'.fixed_income ∧ c.cash_investments = c'.cash_investments := by
  simp only [catRowCaseEquiv, Bool.and_eq_true, beq_iff_eq] at h
  tauto

theorem catRowsCaseEquiv_find? {xs ys : List CatalogRow}
    (h : catRowsCaseEquiv xs ys = true) (pt : String) :
    (xs.find? (fun x => lower x.type_name == pt) = none ∧
     ys.find? (fun x => lower x.type_name == pt) = none) ∨
    ∃ c c', xs.find? (fun x => lower x.type_name == pt) = some c ∧
      ys.find? (fun x => lower x.type_name == pt) = some c' ∧
      catRowCaseEquiv c c' = true := by
  induction xs generalizing ys with
  | nil =>
    cases ys with
    | nil => exact Or.inl ⟨rfl, rfl⟩
    | cons y ys => simp [catRowsCaseEquiv] at h
  | cons x xs ih =>
    cases ys with
    | nil => simp [catRowsCaseEquiv] at h
    | cons y ys =>
      simp only [catRowsCaseEquiv, Bool.and_eq_true] at h
      obtain ⟨h1, h2⟩ := h
      have htn : lower x.type_name = lower y.type_name := (catRowCaseEquiv_fields h1).1
      by_cases hx : (lower x.type_name == pt) = true
      · refine Or.inr ⟨x, y, List.find?_cons_of_pos _ hx,
          List.find?_cons_of_pos _ (by rw [← htn]; exact hx), h1⟩
      · rw [Bool.not_eq_true] at hx
        have hy : (lower y.type_name == pt) = false := by rw [← htn]; exact hx
        simp only [List.find?, hx, hy]
        exact ih h2

theorem mkDisplay_caseEquiv {cat cat' : Catalog} {c c' : CatalogRow} (pt : String)
    (hf2 : cat.hasInvestorTypeCol = cat'.hasInvestorTypeCol)
    (hf3 : cat.hasReturnsCols = cat'.hasReturnsCols)
    (hf4 : cat.hasCompCols = cat'.hasCompCols)
    (h : catRowCaseEquiv c c' = true) :
    mkDisplay cat' pt c' = mkDisplay cat pt c := by
  obtain ⟨e1, e2, e3, e4, e5, e6, e7, e8, e9, e10⟩ := catRowCaseEquiv_fields h
  simp [mkDisplay, comp_pairs, hf2, hf3, hf4, e2, e3, e4, e5, e6, e7, e8, e9, e10]

/-- The resolver only looks at cell texts through `strip`/`lower` and at
catalog `type_name`s through `lower`: replacing them by any variants with the
same normalisation leaves `show_portfolio` unchanged. -/
theorem show_portfolio_caseEquiv {m m' : RiskMatrix} {cat cat' : Catalog} (ths rts : Int)
    (hm : matrixCaseEquiv m m' = true) (hc : catalogCaseEquiv cat cat' = true) :
    show_portfolio m' cat' ths rts = show_portfolio m cat ths rts := by
  simp only [matrixCaseEquiv, Bool.and_eq_true, beq_iff_eq] at hm
  obtain ⟨hcols, hrows⟩ := hm
  simp only [catalogCaseEquiv, Bool.and_eq_true, beq_iff_eq] at hc
  obtain ⟨⟨⟨⟨hf1, hf2⟩, hf3⟩, hf4⟩, hcrows⟩ := hc
  have hre : m'.rows.isEmpty = m.rows.isEmpty := (rowsCaseEquiv_isEmpty hrows).symm
  have hce : cat'.rows.isEmpty = cat.rows.isEmpty := (catRowsCaseEquiv_isEmpty hcrows).symm
  unfold show_portfolio
  rw [hre, hce, ← hcols, ← hf1]
  by_cases h1 : (m.rows.isEmpty || cat.rows.isEmpty) = true
  · simp only [h1, if_true]
  · simp only [Bool.not_eq_true] at h1
    simp only [h1, Bool.false_eq_true, if_false]
    by_cases h2 : m.columns.contains "Time_horizon_score" = true
    · simp only [h2, Bool.not_true, Bool.false_eq_true, if_false]
      by_cases h3 : m.columns.contains (toString rts) = true
      · simp only [h3, Bool.not_true, Bool.false_eq_true, if_false]
        rcases rowsCaseEquiv_find? hrows ths with ⟨hn, hn'⟩ | ⟨r, r', hr, hr', hth2, hcells⟩
        · rw [hn, hn']
        · rw [hr, hr']
          simp only
          have hpt : lower (strip (getCell r' (toString rts))) =
              lower (strip (getCell r (toString rts))) :=
            (getCell_caseEquiv hcells (toString rts)).symm
          rw [hpt]
          by_cases h4 : cat.hasTypeNameCol = true
          · simp only [h4, Bool.not_true, Bool.false_eq_true, if_false]
            rcases catRowsCaseEquiv_find? hcrows (lower (strip (getCell r (toString rts))))
              with ⟨kn, kn'⟩ | ⟨c, c', kc, kc', hcc⟩
            · rw [kn, kn']
            · rw [kc, kc']
              exact congrArg ShowResult.display (mkDisplay_caseEquiv _ hf2 hf3 hf4 hcc)
          · simp only [Bool.not_eq_true] at h4
            simp only [h4, Bool.not_false, if_true]
      · rw [Bool.not_eq_true] at h3
        simp only [h3, Bool.not_false, if_true]
    · rw [Bool.not_eq_true] at h2
      simp only [h2, Bool.not_false, if_true]

/-- C9: when the first matching matrix row's cell and a catalog `type_name`
agree after lowercasing (trimming the cell), resolution succeeds and returns
exactly that first catalog row's fields — description, return statistics and
the five weights — unmodified except for the case-normalised type name; and
replacing cell texts / type names by variants with the same normalisation
(e.g. a casing change on either side) leaves the resolved result unchanged. -/
theorem resolution_case_insensitive (m : RiskMatrix) (cat : Catalog) (ths rts : Int)
    (row : MatrixRow) (c : CatalogRow)
    (hm : m.rows ≠ []) (hcat : cat.rows ≠ [])
    (hth : "Time_horizon_score" ∈ m.columns) (hcol : toString rts ∈ m.columns)
    (hrow : m.rows.find? (fun r => r.th == ths) = some row)
    (htn : cat.hasTypeNameCol = true)
    (hfind : cat.rows.find?
        (fun x => lower x.type_name == lower (strip (getCell row (toString rts)))) =
      some c) :
    show_portfolio m cat ths rts =
      .display (mkDisplay cat (lower (strip (getCell row (toString rts)))) c) ∧
    ∀ m' cat', matrixCaseEquiv m m' = true → catalogCaseEquiv cat cat' = true →
      show_portfolio m' cat' ths rts = show_portfolio m cat ths rts := by
  have hm' : m.rows.isEmpty = false := by
    cases h : m.rows with
    | nil => exact absurd h hm
    | cons a l => rfl
  have hcat' : cat.rows.isEmpty = false := by
    cases h : cat.rows with
    | nil => exact absurd h hcat
    | cons a l => rfl
  refine ⟨?_, fun m' cat' h1 h2 => show_portfolio_caseEquiv ths rts h1 h2⟩
  simp [show_portfolio, hm', hcat', hth, hcol, hrow, htn, hfind]

/-- Witness for C9: cell `"Growth "` (capitalised, trailing blank) resolves
against catalog type name `"GROWTH"`, returning that row's fields with the
normalised name "growth"; recasing the cell to `"gRoWtH"` and the type name
to `"Growth"` yields the identical result. -/
theorem resolution_case_insensitive_witness :
    show_portfolio ⟨["Time_horizon_score", "20"], [⟨5, [("20", "Growth ")]⟩]⟩
        ⟨true, true, true, true,
         [⟨"GROWTH", "Growth investor", "8.6", "30.9", "-19.4",
           some 50, some 20, some 10, some 15, some 5⟩]⟩ 5 20 =
      .display (mkDisplay
        ⟨true, true, true, true,
         [⟨"GROWTH", "Growth investor", "8.6", "30.9", "-19.4",
           some 50, some 20, some 10, some 15, some 5⟩]⟩
        (lower (strip (getCell ⟨5, [("20", "Growth ")]⟩ (toString (20 : Int)))))
        ⟨"GROWTH", "Growth investor", "8.6", "30.9", "-19.4",
          some 50, some 20, some 10, some 15, some 5⟩) ∧
    show_portfolio ⟨["Time_horizon_score", "20"], [⟨5, [("20", "gRoWtH")]⟩]⟩
        ⟨true, true, true, true,
         [⟨"Growth", "Growth investor", "8.6", "30.9", "-19.4",
           some 50, some 20, some 10, some 15, some 5⟩]⟩ 5 20 =
      show_portfolio ⟨["Time_horizon_score", "20"], [⟨5, [("20", "Growth ")]⟩]⟩
        ⟨true, true, true, true,
         [⟨"GROWTH", "Growth investor", "8.6", "30.9", "-19.4",
           some 50, some 20, some 10, some 15, some 5⟩]⟩ 5 20 := by
  have h := resolution_case_insensitive
    ⟨["Time_horizon_score", "20"], [⟨5, [("20", "Growth ")]⟩]⟩
    ⟨true, true, true, true,
     [⟨"GROWTH", "Growth investor", "8.6", "30.9", "-19.4",
       some 50, some 20, some 10, some 15, some 5⟩]⟩ 5 20
    ⟨5, [("20", "Growth ")]⟩
    ⟨"GROWTH", "Growth investor", "8.6", "30.9", "-19.4",
      some 50, some 20, some 10, some 15, some 5⟩
    (by decide) (by decide) (by decide) (by decide) (by decide) rfl (by decide)
  exact ⟨h.1, h.2 ⟨["Time_horizon_score", "20"], [⟨5, [("20", "gRoWtH")]⟩]⟩
    ⟨true, true, true, true,
     [⟨"Growth", "Growth investor", "8.6", "30.9", "-19.4",
       some 50, some 20, some 10, some 15, some 5⟩]⟩ (by decide) (by decide)⟩

/-- C6 counterexample: a resolved catalog row with weights
(large 30, small 30, international 20, fixed income -5, cash 10).  The
displayed breakdown keeps the negative weight -5 — `to_numeric(...)
.fillna(0).astype(int)` only turns invalid/missing cells into 0 and leaves
negative numeric values as they are — so the "each weight coerced to a
non-negative integer" part of the claim is false: the display is not the
all-non-negative breakdown the claim mandates. -/
theorem comp_sort_cex :
    (mkDisplay ⟨true, true, true, true, []⟩ "growth"
        ⟨"growth", "Growth investor", "8.6", "30.9", "-19.4",
         some 30, some 30, some 20, some (-5), some 10⟩).composition =
      some [("Large cap equity", 30), ("Small cap equity", 30),
            ("International equity", 20), ("Cash investments", 10),
            ("Fixed income", -5)] ∧
    (mkDisplay ⟨true, true, true, true, []⟩ "growth"
        ⟨"growth", "Growth investor", "8.6", "30.9", "-19.4",
         some 30, some 30, some 20, some (-5), some 10⟩).composition ≠
      some [("Large cap equity", 30), ("Small cap equity", 30),
            ("International equity", 20), ("Cash investments", 10),
            ("Fixed income", 0)] := by
  constructor
  · decide
  · decide

/-- C6 amended: for every resolved catalog row the displayed weight breakdown
is the five (asset-class, weight) pairs with each weight coerced to an
integer (invalid or missing values become 0; negative numeric weights are
kept as they are), sorted in descending order by weight, and the sort is
stable: asset classes with equal weights retain the catalog input order
(large-cap, small-cap, international, fixed income, cash). -/
theorem comp_breakdown (cat : Catalog) (pt : String) (c : CatalogRow)
    (h : cat.hasCompCols = true) :
    ∃ out, (mkDisplay cat pt c).composition = some out ∧
      out.Perm (comp_pairs c) ∧
      out.Pairwise (fun a b => b.2 ≤ a.2) ∧
      ∀ a b, [a, b].Sublist (comp_pairs c) → a.2 = b.2 → [a, b].Sublist out := by
  refine ⟨sort_values_desc (comp_pairs c), by simp [mkDisplay, h], ?_, ?_, ?_⟩
  · exact (List.reverse_perm _).trans
      ((List.perm_insertionSort _ _).trans (List.reverse_perm _))
  · rw [sort_values_desc, List.pairwise_reverse]
    exact List.sorted_insertionSort weight_le (comp_pairs c).reverse
  · intro a b hab heq
    have h0 : [b, a].Sublist (comp_pairs c).reverse := by simpa using hab.reverse
    have h1 : [b, a].Sublist ((comp_pairs c).reverse.insertionSort weight_le) :=
      List.pair_sublist_insertionSort (r := weight_le) (le_of_eq heq.symm) h0
    have h2 := h1.reverse
    simpa [sort_values_desc] using h2

/-- Witness for C6 (amended) at a concrete catalog row with a tie. -/
theorem comp_breakdown_witness :
    ∃ out,
      (mkDisplay ⟨true, true, true, true, []⟩ "conservative"
          ⟨"conservative", "Conservative investor", "5.9", "15.6", "-4.2",
           some 15, some 15, some 5, some 50, some 15⟩).composition = some out ∧
      out.Perm (comp_pairs
        ⟨"conservative", "Conservative investor", "5.9", "15.6", "-4.2",
         some 15, some 15, some 5, some 50, some 15⟩) ∧
      out.Pairwise (fun a b => b.2 ≤ a.2) ∧
      ∀ a b, [a, b].Sublist (comp_pairs
          ⟨"conservative", "Conservative investor", "5.9", "15.6", "-4.2",
           some 15, some 15, some 5, some 50, some 15⟩) → a.2 = b.2 →
        [a, b].Sublist out :=
  comp_breakdown ⟨true, true, true, true, []⟩ "conservative"
    ⟨"conservative", "Conservative investor", "5.9", "15.6", "-4.2",
     some 15, some 15, some 5, some 50, some 15⟩ rfl

end RiskProfile
